import Mathlib

/-!
# Verification of the aioleviton push-channel connection manager

A shallow embedding of `src/aioleviton/websocket.py` (`LevitonWebSocket`).
Asynchronous I/O is modelled by explicit world inputs: the outcome of opening
the transport, the stream of received frames, and the success of each outbound
send.  `json.loads` is an external library call, so inbound text frames carry
its outcome directly (`none` models a `JSONDecodeError`).  Host callbacks are
identified by natural numbers; a `CallbackEnv` says which of them raise.
Effects are recorded in traces: outbound frames sent, notification-callback
invocations, and disconnect-callback invocations.
-/

namespace Aioleviton

/-- Python `model_id: str | int`. -/
abbrev ModelId := String ⊕ Int

/-- An element of `self._subscriptions : set[tuple[str, str | int]]`. -/
abbrev Subscription := String × ModelId

/-- A parsed JSON value, the result of a successful `json.loads`. -/
inductive Json where
  | null
  | bool (b : Bool)
  | num (n : Int)
  | str (s : String)
  | arr (elems : List Json)
  | obj (fields : List (String × Json))

/-- `d.get(key)` on a Python dict represented as an association list. -/
def Json.lookup : List (String × Json) → String → Option Json
  | [], _ => none
  | (k, v) :: rest, key => if k = key then some v else Json.lookup rest key

/-- Python `x == "s"` where `x` is the result of `dict.get`. -/
def optEqStr (o : Option Json) (s : String) : Bool :=
  match o with
  | some (.str t) => t = s
  | _ => false

/-- The immutable credential fields handed to `LevitonWebSocket.__init__`. -/
structure Credentials where
  token : String
  userId : String
  user : Json
  tokenCreated : String
  tokenTtl : Int

/-- The transport handle (`aiohttp.ClientWebSocketResponse`): we track only
whether it is closed, which is all the source consults (`self._ws.closed`). -/
structure WSHandle where
  closed : Bool
deriving DecidableEq

/-- Exceptions that can escape the modelled operations.  Both `ConnectionFailed`
and `NotConnected` are `LevitonConnectionError` with distinct messages, exactly
as in the source.  `sendError` models an `aiohttp` failure raised by
`send_json`; `jsonDecodeError` a `json.JSONDecodeError`; `attributeError` the
`AttributeError` raised by `data.get(...)` when `data` is not a dict. -/
inductive PyError where
  | levitonConnectionError (msg : String)
  | jsonDecodeError
  | attributeError
  | sendError
deriving DecidableEq

/-- An inbound frame as classified by `msg.type`; a TEXT frame carries the
outcome of `json.loads(msg.data)` (`none`: the parse raises).  `other` covers
frame types that are neither TEXT nor close-like (e.g. BINARY, PONG). -/
inductive WSMsg where
  | text (parsed : Option Json)
  | closed
  | error
  | closing
  | other

/-- One outcome of `asyncio.wait_for(self._ws.receive(), timeout=10.0)`. -/
inductive RecvOutcome where
  | timeout
  | msg (m : WSMsg)

/-- Outbound frames, in the order `send_json` is called. -/
inductive OutFrame where
  | auth (creds : Credentials)
  | subscribe (modelName : String) (modelId : ModelId)
  | unsubscribe (modelName : String) (modelId : ModelId)

/-- How one execution of the `_listen` loop ended. -/
inductive ListenExit where
  | streamEnd
  | closeFrame
  | fault
  | cancelled
deriving DecidableEq

/-- Which host callbacks raise when invoked. -/
structure CallbackEnv where
  notifRaises : Nat → Json → Bool
  discRaises : Nat → Bool

/-- The mutable fields of `LevitonWebSocket`.  The subscription set is a
duplicate-free list with set operations (Python `set` semantics);
`listenPending` records whether a created `_listen` task has not yet run to
completion. -/
structure WSState where
  ws : Option WSHandle
  connectionId : Option Json
  subscriptions : List Subscription
  notificationCallbacks : List Nat
  disconnectCallbacks : List Nat
  listenPending : Bool
  connected : Bool

/-- The whole system: object state plus the observable effect traces. -/
structure Sys where
  creds : Credentials
  st : WSState
  sent : List OutFrame
  notifCalls : List (Nat × Json)
  discCalls : List Nat
  listenExits : List ListenExit

/-- Boolean membership in the subscription set (Python `in`). -/
def subMem (x : Subscription) : List Subscription → Bool
  | [] => false
  | y :: rest => if y = x then true else subMem x rest

/-- `set.add`: absorb a duplicate, otherwise append. -/
def setAdd (x : Subscription) (l : List Subscription) : List Subscription :=
  if subMem x l then l else l ++ [x]

/-- `set.discard`: remove the element if present, no-op otherwise. -/
def setDiscard (x : Subscription) (l : List Subscription) : List Subscription :=
  l.filter (fun y => !decide (y = x))

/-- One guarded callback invocation: `try: callback(...) except Exception: log`.
The `Except` value records whether the host callback raised. -/
def callNotif (env : CallbackEnv) (c : Nat) (payload : Json) : Except Unit Unit :=
  if env.notifRaises c payload then .error () else .ok ()

/-- As `callNotif`, for a disconnect callback. -/
def callDisc (env : CallbackEnv) (c : Nat) : Except Unit Unit :=
  if env.discRaises c then .error () else .ok ()

/-- `for callback in self._notification_callbacks: try: callback(notification)
except Exception: ...` — returns the invocations made, in order.  The
`except` arm falls through to the next iteration just as the `ok` arm does. -/
def dispatchNotifs (env : CallbackEnv) (cbs : List Nat) (payload : Json) :
    List (Nat × Json) :=
  match cbs with
  | [] => []
  | c :: rest =>
    match callNotif env c payload with
    | .ok _ => (c, payload) :: dispatchNotifs env rest payload
    | .error _ => (c, payload) :: dispatchNotifs env rest payload

/-- `for dc_callback in self._disconnect_callbacks: try: dc_callback()
except Exception: ...` — returns the invocations made, in order. -/
def runDiscCallbacks (env : CallbackEnv) (cbs : List Nat) : List Nat :=
  match cbs with
  | [] => []
  | c :: rest =>
    match callDisc env c with
    | .ok _ => c :: runDiscCallbacks env rest
    | .error _ => c :: runDiscCallbacks env rest

/-- Outcome of the `for _ in range(10)` ready-wait loop inside `connect`. -/
inductive ReadyResult where
  | ready (connectionId : Option Json)
  | notReady
  | closedDuringAuth
  | decodeError
  | attrError

/-- The ready-wait loop of `connect`: up to `fuel` (= 10) receives, each under a
10-second timeout.  A `TimeoutError` breaks out (`notReady`); a close-like
frame raises `LevitonConnectionError("WebSocket closed during auth")`; a TEXT
frame whose `json.loads` fails propagates the `JSONDecodeError`; a TEXT frame
whose payload is not a dict makes `data.get` raise `AttributeError`; a
`{"type": "status", "status": "ready"}` frame succeeds; anything else loops.
An empty outcome list means the blocking receive only ever times out. -/
def readyWait : Nat → List RecvOutcome → ReadyResult
  | 0, _ => .notReady
  | Nat.succ _, [] => .notReady
  | Nat.succ _, RecvOutcome.timeout :: _ => .notReady
  | Nat.succ n, RecvOutcome.msg m :: rest =>
    match m with
    | .closed => .closedDuringAuth
    | .error => .closedDuringAuth
    | .closing => .closedDuringAuth
    | .text none => .decodeError
    | .text (some (Json.obj fields)) =>
      if optEqStr (Json.lookup fields "type") "status" &&
          optEqStr (Json.lookup fields "status") "ready" then
        .ready (Json.lookup fields "connectionId")
      else readyWait n rest
    | .text (some _) => .attrError
    | .other => readyWait n rest

/-- `connect()`.  `openOk` is the world's verdict on `session.ws_connect`
(`false`: it raises `aiohttp.ClientError`/`OSError`); `handshake` is the
stream of receive outcomes seen by the ready-wait.  On a failed open, `_ws`
is left untouched (the assignment never runs).  On `notReady` the source
explicitly closes the transport before raising; on `closedDuringAuth` the
transport was closed by the peer (the handle reports closed); on a decode or
attribute error the exception escapes with the transport left open. -/
def connectOp (sys : Sys) (openOk : Bool) (handshake : List RecvOutcome) :
    Sys × Except PyError Unit :=
  if openOk = false then
    (sys, .error (.levitonConnectionError "WebSocket connection failed"))
  else
    let sys1 : Sys :=
      { sys with
        st := { sys.st with ws := some ⟨false⟩ },
        sent := sys.sent ++ [.auth sys.creds] }
    match readyWait 10 handshake with
    | .ready cid =>
      ({ sys1 with
          st := { sys1.st with
                  connectionId := cid
                  connected := true
                  listenPending := true } }, .ok ())
    | .closedDuringAuth =>
      ({ sys1 with st := { sys1.st with ws := some ⟨true⟩ } },
        .error (.levitonConnectionError "WebSocket closed during auth"))
    | .notReady =>
      ({ sys1 with st := { sys1.st with ws := some ⟨true⟩ } },
        .error (.levitonConnectionError "WebSocket did not reach ready state"))
    | .decodeError => (sys1, .error .jsonDecodeError)
    | .attrError => (sys1, .error .attributeError)

/-- The body of the `async for msg in self._ws` loop of `_listen`.
`cancelAt = some k` delivers a `CancelledError` at the suspension point after
`k` further frames have been processed.  Returns the notification-callback
invocations made and how the loop ended: a close-like frame breaks; a
non-JSON TEXT frame is caught and skipped; a TEXT frame whose payload is not
a dict raises `AttributeError`, caught by the outer `except Exception`
(`fault`); a notification frame dispatches to every callback. -/
def listenLoop (env : CallbackEnv) (ncbs : List Nat) :
    List WSMsg → Option Nat → List (Nat × Json) × ListenExit
  | _, some 0 => ([], .cancelled)
  | [], _ => ([], .streamEnd)
  | m :: rest, cancelAt =>
    match m with
    | .closed => ([], .closeFrame)
    | .error => ([], .closeFrame)
    | .closing => ([], .closeFrame)
    | .other => listenLoop env ncbs rest (cancelAt.map (· - 1))
    | .text none => listenLoop env ncbs rest (cancelAt.map (· - 1))
    | .text (some (Json.obj fields)) =>
      if optEqStr (Json.lookup fields "type") "notification" then
        let payload := (Json.lookup fields "notification").getD (Json.obj [])
        let calls := dispatchNotifs env ncbs payload
        let r := listenLoop env ncbs rest (cancelAt.map (· - 1))
        (calls ++ r.1, r.2)
      else listenLoop env ncbs rest (cancelAt.map (· - 1))
    | .text (some _) => ([], .fault)

/-- One full execution of the `_listen` task body against the frame stream
`frames`.  Whatever the exit reason, the `finally` block sets
`self._connected = False` and runs every disconnect callback.  A close-like
exit leaves the transport handle reporting closed (the peer closed it); a
fault or cancellation leaves the handle as it was.  Runs only if a created
task is still pending; the `assert self._ws is not None` at the top is
unreachable for states produced by this model's operations. -/
def listenRunOp (env : CallbackEnv) (sys : Sys) (frames : List WSMsg)
    (cancelAt : Option Nat) : Sys :=
  if sys.st.listenPending = false then sys
  else
    match sys.st.ws with
    | none => sys
    | some h =>
      let r := listenLoop env sys.st.notificationCallbacks frames cancelAt
      let wsAfter : Option WSHandle :=
        if r.2 = ListenExit.closeFrame then some ⟨true⟩ else some h
      { sys with
        st := { sys.st with
                connected := false
                listenPending := false
                ws := wsAfter }
        notifCalls := sys.notifCalls ++ r.1
        discCalls := sys.discCalls ++ runDiscCallbacks env sys.st.disconnectCallbacks
        listenExits := sys.listenExits ++ [r.2] }

/-- `disconnect()`: set `_connected = False`; cancel and await a pending
listen task (its `CancelledError` handler returns, so its `finally` block
runs, firing the disconnect callbacks); close the transport; set `_ws = None`.
The subscription set is not touched. -/
def disconnectOp (env : CallbackEnv) (sys : Sys) : Sys :=
  let sysA : Sys := { sys with st := { sys.st with connected := false } }
  let sysB : Sys :=
    if sysA.st.listenPending then
      { sysA with
        st := { sysA.st with listenPending := false },
        discCalls := sysA.discCalls ++ runDiscCallbacks env sysA.st.disconnectCallbacks,
        listenExits := sysA.listenExits ++ [ListenExit.cancelled] }
    else sysA
  { sysB with st := { sysB.st with ws := none } }

/-- `reset()`: `disconnect()`, then clear the subscription set and both
callback registries. -/
def resetOp (env : CallbackEnv) (sys : Sys) : Sys :=
  let sysA := disconnectOp env sys
  { sysA with
    st := { sysA.st with
            subscriptions := []
            notificationCallbacks := []
            disconnectCallbacks := [] } }

/-- `subscribe(model_name, model_id)`: raise
`LevitonConnectionError("WebSocket not connected")` when `_ws` is absent or
closed; otherwise send the subscribe frame and only then add the pair to the
set.  `sendOk` is the world's verdict on `send_json`; when it raises, neither
the sent trace nor the set is updated. -/
def subscribeOp (sys : Sys) (modelName : String) (modelId : ModelId)
    (sendOk : Bool) : Sys × Except PyError Unit :=
  match sys.st.ws with
  | none => (sys, .error (.levitonConnectionError "WebSocket not connected"))
  | some h =>
    if h.closed then
      (sys, .error (.levitonConnectionError "WebSocket not connected"))
    else if sendOk then
      ({ sys with
          st := { sys.st with
                  subscriptions := setAdd (modelName, modelId) sys.st.subscriptions },
          sent := sys.sent ++ [.subscribe modelName modelId] }, .ok ())
    else (sys, .error .sendError)

/-- `unsubscribe(model_name, model_id)`: silently return when `_ws` is absent
or closed; otherwise send the unsubscribe frame and discard the pair. -/
def unsubscribeOp (sys : Sys) (modelName : String) (modelId : ModelId)
    (sendOk : Bool) : Sys × Except PyError Unit :=
  match sys.st.ws with
  | none => (sys, .ok ())
  | some h =>
    if h.closed then (sys, .ok ())
    else if sendOk then
      ({ sys with
          st := { sys.st with
                  subscriptions := setDiscard (modelName, modelId) sys.st.subscriptions },
          sent := sys.sent ++ [.unsubscribe modelName modelId] }, .ok ())
    else (sys, .error .sendError)

/-- The `for model_name, model_id in saved: await self.subscribe(...)` replay
loop of `reconnect`; a raise from `subscribe` propagates immediately. -/
def replaySubs (sys : Sys) (sendOk : Bool) :
    List Subscription → Sys × Except PyError Unit
  | [] => (sys, .ok ())
  | (n, i) :: rest =>
    match subscribeOp sys n i sendOk with
    | (sysA, .ok _) => replaySubs sysA sendOk rest
    | (sysA, .error e) => (sysA, .error e)

/-- `reconnect()`: snapshot the subscription set, `disconnect()`, `connect()`
(errors propagate), then replay `subscribe` for every snapshotted entry. -/
def reconnectOp (env : CallbackEnv) (sys : Sys) (openOk : Bool)
    (handshake : List RecvOutcome) (sendOk : Bool) : Sys × Except PyError Unit :=
  let saved := sys.st.subscriptions
  let sysA := disconnectOp env sys
  match connectOp sysA openOk handshake with
  | (sysB, .ok _) => replaySubs sysB sendOk saved
  | (sysB, .error e) => (sysB, .error e)

/-- `MAX_RECONNECT_DELAY = 16.0`, as an exact rational. -/
def MAX_RECONNECT_DELAY : ℚ := 16

/-- `reconnect_delay(attempts)` over exact rational arithmetic:
`min(1.0 * (2**attempts) * (0.5 * random.random() + 0.75), MAX_RECONNECT_DELAY)`,
with the jitter draw `random.random()` passed in as `u`. -/
def reconnect_delay (attempts : Nat) (u : ℚ) : ℚ :=
  min (1 * 2 ^ attempts * (1/2 * u + 3/4)) MAX_RECONNECT_DELAY

/-- An API or scheduler event: the public operations with their world inputs,
one execution of a pending `_listen` task, and callback registration
(`on_notification` / `on_disconnect`). -/
inductive Event where
  | connectEv (openOk : Bool) (handshake : List RecvOutcome)
  | disconnectEv
  | resetEv
  | subscribeEv (modelName : String) (modelId : ModelId) (sendOk : Bool)
  | unsubscribeEv (modelName : String) (modelId : ModelId) (sendOk : Bool)
  | reconnectEv (openOk : Bool) (handshake : List RecvOutcome) (sendOk : Bool)
  | listenEv (frames : List WSMsg) (cancelAt : Option Nat)
  | onNotificationEv (c : Nat)
  | onDisconnectEv (c : Nat)

/-- Apply one event; exceptions raised by an operation are absorbed by the
caller and do not change the state further. -/
def step (env : CallbackEnv) (sys : Sys) : Event → Sys
  | .connectEv openOk handshake => (connectOp sys openOk handshake).1
  | .disconnectEv => disconnectOp env sys
  | .resetEv => resetOp env sys
  | .subscribeEv n i sendOk => (subscribeOp sys n i sendOk).1
  | .unsubscribeEv n i sendOk => (unsubscribeOp sys n i sendOk).1
  | .reconnectEv openOk handshake sendOk =>
      (reconnectOp env sys openOk handshake sendOk).1
  | .listenEv frames cancelAt => listenRunOp env sys frames cancelAt
  | .onNotificationEv c =>
      { sys with st := { sys.st with
          notificationCallbacks := sys.st.notificationCallbacks ++ [c] } }
  | .onDisconnectEv c =>
      { sys with st := { sys.st with
          disconnectCallbacks := sys.st.disconnectCallbacks ++ [c] } }

/-- The state produced by `__init__`. -/
def initSys (creds : Credentials) : Sys :=
  { creds := creds
    st := { ws := none, connectionId := none, subscriptions := [],
            notificationCallbacks := [], disconnectCallbacks := [],
            listenPending := false, connected := false }
    sent := [], notifCalls := [], discCalls := [], listenExits := [] }

/-- Run an event trace from the initial state: every state reachable through
the public API and the background listen task is `run env creds tr` for some
trace `tr`. -/
def run (env : CallbackEnv) (creds : Credentials) (tr : List Event) : Sys :=
  tr.foldl (step env) (initSys creds)

/-- The guard `not self._ws or self._ws.closed` shared by `subscribe` and
`unsubscribe`: `true` when the transport handle is absent or closed. -/
def transportClosed (sys : Sys) : Bool :=
  match sys.st.ws with
  | none => true
  | some h => h.closed

/-- An abstract record of one `subscribe` or `unsubscribe` call. -/
inductive SetOp where
  | sub (modelName : String) (modelId : ModelId)
  | unsub (modelName : String) (modelId : ModelId)

/-- Apply a sequence of `subscribe`/`unsubscribe` calls, every send
succeeding. -/
def applyOps (sys : Sys) : List SetOp → Sys
  | [] => sys
  | SetOp.sub n i :: rest => applyOps (subscribeOp sys n i true).1 rest
  | SetOp.unsub n i :: rest => applyOps (unsubscribeOp sys n i true).1 rest

/-- The specification's mathematical-set reading of a call sequence:
`subscribe` inserts the pair (duplicates absorbed), `unsubscribe` removes it
(removing an absent pair is a no-op). -/
def mathSetModel (s : Finset Subscription) : List SetOp → Finset Subscription
  | [] => s
  | SetOp.sub n i :: rest => mathSetModel (insert (n, i) s) rest
  | SetOp.unsub n i :: rest => mathSetModel (s.erase (n, i)) rest

/-- A callback environment in which no host callback raises. -/
def env0 : CallbackEnv := ⟨fun _ _ => false, fun _ => false⟩

/-- A callback environment in which every host callback raises. -/
def envAllRaise : CallbackEnv := ⟨fun _ _ => true, fun _ => true⟩

/-- Concrete credentials for witness states. -/
def creds0 : Credentials := ⟨"tok", "uid", Json.obj [], "2024-01-01", 86400⟩

/-- A `{"type": "status", "status": "ready"}` handshake frame. -/
def readyFrame : WSMsg :=
  WSMsg.text (some (Json.obj [("type", Json.str "status"), ("status", Json.str "ready")]))

/-- A TEXT frame whose body is not valid JSON (`json.loads` raises). -/
def malformedFrame : WSMsg := WSMsg.text none

/-- A well-formed notification frame carrying `payload`. -/
def notificationFrame (payload : Json) : WSMsg :=
  WSMsg.text (some (Json.obj
    [("type", Json.str "notification"), ("notification", payload)]))

/-- Connect successfully, then let the listen task hit an in-loop fault: a
TEXT frame whose JSON payload is a list makes `data.get` raise
`AttributeError`, caught by the loop's `except Exception`.  The `finally`
block sets `_connected = False`, but `_ws` stays open. -/
def c4trace : List Event :=
  [Event.connectEv true [RecvOutcome.msg readyFrame],
   Event.listenEv [WSMsg.text (some (Json.arr []))] none]

/-- A reachable connected state: two observers of each kind registered, a
successful connect, and two live subscriptions. -/
def cSys : Sys :=
  run env0 creds0
    [Event.onDisconnectEv 7, Event.onDisconnectEv 8,
     Event.onNotificationEv 3, Event.onNotificationEv 4,
     Event.connectEv true [RecvOutcome.msg readyFrame],
     Event.subscribeEv "IotWhem" (Sum.inl "w1") true,
     Event.subscribeEv "ResidentialBreakerPanel" (Sum.inr 2) true]

/-- A concrete call sequence exercising duplicate subscribes and removals of
absent entries. -/
def c3ops : List SetOp :=
  [SetOp.sub "A" (Sum.inl "x"), SetOp.sub "A" (Sum.inl "x"),
   SetOp.unsub "B" (Sum.inr 2), SetOp.sub "B" (Sum.inr 2),
   SetOp.unsub "A" (Sum.inl "x")]

/- ## Helper lemmas -/

theorem subMem_true_iff (x : Subscription) (l : List Subscription) :
    subMem x l = true ↔ x ∈ l := by
  induction l with
  | nil => simp [subMem]
  | cons y rest ih =>
    by_cases h : y = x
    · subst h; simp [subMem]
    · rw [show subMem x (y :: rest) = subMem x rest from by simp [subMem, h], ih,
        List.mem_cons]
      constructor
      · exact Or.inr
      · rintro (h1 | h1)
        · exact absurd h1.symm h
        · exact h1

theorem setAdd_of_mem {x : Subscription} {l : List Subscription} (h : x ∈ l) :
    setAdd x l = l := by
  simp [setAdd, (subMem_true_iff x l).mpr h]

theorem toFinset_setAdd (x : Subscription) (l : List Subscription) :
    (setAdd x l).toFinset = insert x l.toFinset := by
  cases hb : subMem x l with
  | true =>
    have h : x ∈ l := (subMem_true_iff x l).mp hb
    rw [setAdd_of_mem h]
    exact (Finset.insert_eq_self.mpr (List.mem_toFinset.mpr h)).symm
  | false =>
    simp [setAdd, hb, List.toFinset_append, Finset.union_comm, Finset.insert_eq]

theorem toFinset_setDiscard (x : Subscription) (l : List Subscription) :
    (setDiscard x l).toFinset = l.toFinset.erase x := by
  induction l with
  | nil => simp [setDiscard]
  | cons y rest ih =>
    by_cases h : y = x
    · subst h
      simp only [setDiscard, List.filter_cons] at ih ⊢
      simp [Finset.erase_insert_of_ne, ih, Finset.erase_insert_eq_erase]
    · simp only [setDiscard, List.filter_cons] at ih ⊢
      simp [h, ih, Finset.erase_insert_of_ne, Ne.symm h]

theorem runDiscCallbacks_eq_self (env : CallbackEnv) (cbs : List Nat) :
    runDiscCallbacks env cbs = cbs := by
  induction cbs with
  | nil => rfl
  | cons c rest ih =>
    unfold runDiscCallbacks
    cases callDisc env c <;> simp [ih]

theorem dispatchNotifs_eq_map (env : CallbackEnv) (cbs : List Nat) (p : Json) :
    dispatchNotifs env cbs p = cbs.map (fun c => (c, p)) := by
  induction cbs with
  | nil => rfl
  | cons c rest ih =>
    unfold dispatchNotifs
    cases callNotif env c p <;> simp [ih]

theorem disconnectOp_fields (env : CallbackEnv) (sys : Sys) :
    (disconnectOp env sys).creds = sys.creds ∧
    (disconnectOp env sys).sent = sys.sent ∧
    (disconnectOp env sys).st.ws = none ∧
    (disconnectOp env sys).st.connected = false ∧
    (disconnectOp env sys).st.subscriptions = sys.st.subscriptions ∧
    (disconnectOp env sys).st.notificationCallbacks = sys.st.notificationCallbacks ∧
    (disconnectOp env sys).st.disconnectCallbacks = sys.st.disconnectCallbacks ∧
    (disconnectOp env sys).st.listenPending = false := by
  unfold disconnectOp
  by_cases h : sys.st.listenPending <;> simp [h]

theorem connectOp_frame (sys : Sys) (openOk : Bool) (hs : List RecvOutcome) :
    (connectOp sys openOk hs).1.st.subscriptions = sys.st.subscriptions ∧
    (connectOp sys openOk hs).1.creds = sys.creds ∧
    (connectOp sys openOk hs).1.st.notificationCallbacks = sys.st.notificationCallbacks ∧
    (connectOp sys openOk hs).1.st.disconnectCallbacks = sys.st.disconnectCallbacks := by
  unfold connectOp
  cases openOk with
  | false => simp
  | true => cases readyWait 10 hs <;> simp

theorem replaySubs_preserved (l : List Subscription) (sys : Sys) (sendOk : Bool)
    (h : ∀ p ∈ l, p ∈ sys.st.subscriptions) :
    (replaySubs sys sendOk l).1.st.subscriptions = sys.st.subscriptions := by
  induction l generalizing sys with
  | nil => rfl
  | cons p rest ih =>
    obtain ⟨n, i⟩ := p
    have hmem : (n, i) ∈ sys.st.subscriptions := h (n, i) (List.mem_cons_self _ _)
    unfold replaySubs
    cases hw : sys.st.ws with
    | none => simp [subscribeOp, hw]
    | some hd =>
      by_cases hc : hd.closed
      · simp [subscribeOp, hw, hc]
      · cases sendOk with
        | false => simp [subscribeOp, hw, hc]
        | true =>
          simp only [subscribeOp, hw, hc, Bool.false_eq_true, if_false, if_true]
          rw [setAdd_of_mem hmem]
          exact ih _ (fun q hq => h q (List.mem_cons_of_mem _ hq))


/-- C1: the subscription set is cleared only by reset and never by disconnect
or reconnect; reset also empties both observer registries. -/
theorem c1_subscriptions_survive (env : CallbackEnv) (sys : Sys) :
    (disconnectOp env sys).st.subscriptions = sys.st.subscriptions ∧
    (∀ (openOk : Bool) (hs : List RecvOutcome) (so : Bool),
      (reconnectOp env sys openOk hs so).1.st.subscriptions = sys.st.subscriptions) ∧
    (resetOp env sys).st.subscriptions = [] ∧
    (resetOp env sys).st.notificationCallbacks = [] ∧
    (resetOp env sys).st.disconnectCallbacks = [] := by
  refine ⟨(disconnectOp_fields env sys).2.2.2.2.1, ?_, rfl, rfl, rfl⟩
  intro openOk hs so
  have hdisc := (disconnectOp_fields env sys).2.2.2.2.1
  have hframe := (connectOp_frame (disconnectOp env sys) openOk hs).1
  unfold reconnectOp
  rcases hC : connectOp (disconnectOp env sys) openOk hs with ⟨sysB, res⟩
  rw [hC] at hframe
  cases res with
  | error e =>
    simp only [hC]
    rw [hframe, hdisc]
  | ok u =>
    simp only [hC]
    have hsubsB : sysB.st.subscriptions = sys.st.subscriptions := by
      rw [hframe, hdisc]
    rw [replaySubs_preserved _ _ _ (fun p hp => by rw [hsubsB]; exact hp), hsubsB]

/-- C3: for every call sequence made while the transport is open, the
subscriptions property equals the mathematical set obtained by folding the
operations (insert on subscribe, erase on unsubscribe). -/
theorem c3_set_semantics (sys : Sys) (ops : List SetOp)
    (hw : sys.st.ws = some ⟨false⟩) :
    ((applyOps sys ops).st.subscriptions).toFinset =
      mathSetModel sys.st.subscriptions.toFinset ops := by
  induction ops generalizing sys with
  | nil => rfl
  | cons op rest ih =>
    cases op with
    | sub n i =>
      have h2 : (subscribeOp sys n i true).1.st.ws = some ⟨false⟩ := by
        simp [subscribeOp, hw]
      have h3 : (subscribeOp sys n i true).1.st.subscriptions =
          setAdd (n, i) sys.st.subscriptions := by
        simp [subscribeOp, hw]
      rw [show applyOps sys (SetOp.sub n i :: rest) =
            applyOps (subscribeOp sys n i true).1 rest from rfl,
        ih _ h2, h3, toFinset_setAdd]
      rfl
    | unsub n i =>
      have h2 : (unsubscribeOp sys n i true).1.st.ws = some ⟨false⟩ := by
        simp [unsubscribeOp, hw]
      have h3 : (unsubscribeOp sys n i true).1.st.subscriptions =
          setDiscard (n, i) sys.st.subscriptions := by
        simp [unsubscribeOp, hw]
      rw [show applyOps sys (SetOp.unsub n i :: rest) =
            applyOps (unsubscribeOp sys n i true).1 rest from rfl,
        ih _ h2, h3, toFinset_setDiscard]
      rfl

/-- C8: subscribe sends first and records second; when the send raises, the
subscription set (indeed the whole state) is unchanged. -/
theorem c8_send_then_record (sys : Sys) (n : String) (i : ModelId)
    (hw : sys.st.ws = some ⟨false⟩) :
    subscribeOp sys n i false = (sys, Except.error PyError.sendError) ∧
    (subscribeOp sys n i true).1.st.subscriptions =
      setAdd (n, i) sys.st.subscriptions ∧
    (subscribeOp sys n i true).1.sent = sys.sent ++ [OutFrame.subscribe n i] := by
  simp [subscribeOp, hw]

/-- C9: reconnect_delay equals min(base * 2^attempt * (0.75 + 0.5 U), cap),
lies in [0, 16], and is 16 at attempt 100. -/
theorem c9_backoff (a : Nat) (u : ℚ) (h0 : 0 ≤ u) (h1 : u < 1) :
    reconnect_delay a u = min (1 * 2 ^ a * (3/4 + 1/2 * u)) 16 ∧
    0 ≤ reconnect_delay a u ∧
    reconnect_delay a u ≤ 16 ∧
    reconnect_delay 100 u = 16 := by
  have hform : (1 : ℚ) * 2 ^ a * (1/2 * u + 3/4) = 1 * 2 ^ a * (3/4 + 1/2 * u) := by
    ring
  have hpos : (0 : ℚ) ≤ 1 * 2 ^ a * (1/2 * u + 3/4) := by positivity
  refine ⟨by rw [reconnect_delay, MAX_RECONNECT_DELAY, hform], ?_, ?_, ?_⟩
  · unfold reconnect_delay MAX_RECONNECT_DELAY
    exact le_min hpos (by norm_num)
  · unfold reconnect_delay MAX_RECONNECT_DELAY
    exact min_le_right _ _
  · unfold reconnect_delay MAX_RECONNECT_DELAY
    apply min_eq_right
    have h34 : (3/4 : ℚ) ≤ 1/2 * u + 3/4 := by linarith
    calc (16 : ℚ) ≤ 1 * 2 ^ 100 * (3/4) := by norm_num
      _ ≤ 1 * 2 ^ 100 * (1/2 * u + 3/4) := by gcongr

/-- C4 (amended): subscribe raises NotConnected exactly when the transport
handle is absent or closed; under that condition unsubscribe silently
returns, unchanged. -/
theorem c4_guard (sys : Sys) (n : String) (i : ModelId) (so : Bool) :
    ((subscribeOp sys n i so).2 =
        Except.error (PyError.levitonConnectionError "WebSocket not connected") ↔
      transportClosed sys = true) ∧
    (transportClosed sys = true →
      subscribeOp sys n i so =
        (sys, Except.error (PyError.levitonConnectionError "WebSocket not connected")) ∧
      unsubscribeOp sys n i so = (sys, Except.ok ())) := by
  cases hw : sys.st.ws with
  | none => simp [subscribeOp, unsubscribeOp, transportClosed, hw]
  | some h =>
    cases hc : h.closed <;> cases so <;>
      simp [subscribeOp, unsubscribeOp, transportClosed, hw, hc]

/-- C4 (counterexample to the claim as stated): after a successful connect and
an in-loop fault, `connected` is `false` while the transport stays open, and
subscribe succeeds instead of raising NotConnected. -/
theorem c4_counterexample :
    ¬ (∀ (tr : List Event) (n : String) (i : ModelId) (so : Bool),
        (run env0 creds0 tr).st.connected = false →
        (subscribeOp (run env0 creds0 tr) n i so).2 =
          Except.error (PyError.levitonConnectionError "WebSocket not connected")) := by
  intro hclaim
  exact Except.noConfusion (hclaim c4trace "IotWhem" (Sum.inr 1) true rfl)

/-- C5: connect fails with ConnectionFailed when the transport cannot be
opened, when the transport closes during the handshake wait, or when the
bounded ready-wait is exhausted (the transport then being closed first); every
failure leaves `connected == false`. -/
theorem c5_connect_failure (sys : Sys) (openOk : Bool) (hs : List RecvOutcome)
    (hpre : sys.st.connected = false) :
    (openOk = false →
      connectOp sys openOk hs =
        (sys, Except.error (PyError.levitonConnectionError "WebSocket connection failed"))) ∧
    (readyWait 10 hs = ReadyResult.closedDuringAuth →
      (connectOp sys true hs).2 =
        Except.error (PyError.levitonConnectionError "WebSocket closed during auth")) ∧
    (readyWait 10 hs = ReadyResult.notReady →
      (connectOp sys true hs).2 =
        Except.error (PyError.levitonConnectionError "WebSocket did not reach ready state") ∧
      (connectOp sys true hs).1.st.ws = some ⟨true⟩) ∧
    (∀ e, (connectOp sys openOk hs).2 = Except.error e →
      (connectOp sys openOk hs).1.st.connected = false) := by
  refine ⟨?_, ?_, ?_, ?_⟩
  · intro h; subst h; simp [connectOp]
  · intro h; simp [connectOp, h]
  · intro h; simp [connectOp, h]
  · intro e he
    cases openOk with
    | false => simpa [connectOp] using hpre
    | true =>
      unfold connectOp at he ⊢
      cases hr : readyWait 10 hs <;> simp [hr] at he ⊢ <;> exact hpre

/-- C10: a non-JSON text frame during the ready-wait makes connect raise the
raw JSON decode error, with `connected` still false and the transport left
open (not explicitly closed). -/
theorem c10_decode_error (sys : Sys) (hs : List RecvOutcome)
    (hpre : sys.st.connected = false)
    (hr : readyWait 10 hs = ReadyResult.decodeError) :
    (connectOp sys true hs).2 = Except.error PyError.jsonDecodeError ∧
    (connectOp sys true hs).1.st.connected = false ∧
    (connectOp sys true hs).1.st.ws = some ⟨false⟩ := by
  unfold connectOp
  simp [hr, hpre]

theorem disconnectOp_discCalls_of_done (env : CallbackEnv) (sys : Sys)
    (h : sys.st.listenPending = false) :
    (disconnectOp env sys).discCalls = sys.discCalls := by
  unfold disconnectOp
  simp [h]

theorem subscribeOp_open (sys : Sys) (n : String) (i : ModelId)
    (hw : sys.st.ws = some ⟨false⟩) :
    subscribeOp sys n i true =
      ({ sys with
          st := { sys.st with subscriptions := setAdd (n, i) sys.st.subscriptions }
          sent := sys.sent ++ [OutFrame.subscribe n i] }, Except.ok ()) := by
  unfold subscribeOp
  rw [hw]
  rfl

theorem replaySubs_open (l : List Subscription) (sys : Sys)
    (hw : sys.st.ws = some ⟨false⟩) :
    (replaySubs sys true l).2 = Except.ok () ∧
    (replaySubs sys true l).1.sent =
      sys.sent ++ l.map (fun p => OutFrame.subscribe p.1 p.2) ∧
    (replaySubs sys true l).1.st.ws = some ⟨false⟩ := by
  induction l generalizing sys with
  | nil => exact ⟨rfl, by simp [replaySubs], hw⟩
  | cons p rest ih =>
    obtain ⟨n, i⟩ := p
    have hstep : replaySubs sys true ((n, i) :: rest) =
        replaySubs ({ sys with
          st := { sys.st with subscriptions := setAdd (n, i) sys.st.subscriptions }
          sent := sys.sent ++ [OutFrame.subscribe n i] }) true rest := by
      conv_lhs => rw [replaySubs]
      rw [subscribeOp_open sys n i hw]
    obtain ⟨ih1, ih2, ih3⟩ := ih ({ sys with
        st := { sys.st with subscriptions := setAdd (n, i) sys.st.subscriptions }
        sent := sys.sent ++ [OutFrame.subscribe n i] }) hw
    rw [hstep]
    refine ⟨ih1, ?_, ih3⟩
    rw [ih2]
    simp

theorem connectOp_ok (sys : Sys) (oo : Bool) (hs : List RecvOutcome)
    (h : (connectOp sys oo hs).2 = Except.ok ()) :
    (connectOp sys oo hs).1.st.ws = some ⟨false⟩ ∧
    (connectOp sys oo hs).1.sent = sys.sent ++ [OutFrame.auth sys.creds] ∧
    (connectOp sys oo hs).1.st.connected = true := by
  unfold connectOp at h ⊢
  cases oo with
  | false => simp at h
  | true => cases hr : readyWait 10 hs <;> simp [hr] at h ⊢

/-- C6: on every exit of the listen loop the finalization runs once:
connected becomes false, every disconnect observer is invoked exactly once in
registration order (raises caught), and a later disconnect does not re-invoke
them. -/
theorem c6_listen_finalization (env : CallbackEnv) (sys : Sys)
    (frames : List WSMsg) (cancelAt : Option Nat)
    (hp : sys.st.listenPending = true) (hw : sys.st.ws.isSome = true) :
    (listenRunOp env sys frames cancelAt).st.connected = false ∧
    (listenRunOp env sys frames cancelAt).discCalls =
      sys.discCalls ++ sys.st.disconnectCallbacks ∧
    (listenRunOp env sys frames cancelAt).st.listenPending = false ∧
    (disconnectOp env (listenRunOp env sys frames cancelAt)).discCalls =
      (listenRunOp env sys frames cancelAt).discCalls := by
  obtain ⟨h, hws⟩ := Option.isSome_iff_exists.mp hw
  have hmain : (listenRunOp env sys frames cancelAt).st.connected = false ∧
      (listenRunOp env sys frames cancelAt).discCalls =
        sys.discCalls ++ sys.st.disconnectCallbacks ∧
      (listenRunOp env sys frames cancelAt).st.listenPending = false := by
    unfold listenRunOp
    rw [hp, hws]
    simp [runDiscCallbacks_eq_self]
  exact ⟨hmain.1, hmain.2.1,  hmain.2.2,
    by rw [disconnectOp_discCalls_of_done env _ hmain.2.2]⟩

/-- C7: a malformed frame, a notification frame, then a close frame produce
exactly one dispatch per registered notification observer, in registration
order, and the loop still terminates via the close frame. -/
theorem c7_notification_dispatch (env : CallbackEnv) (sys : Sys) (payload : Json)
    (hp : sys.st.listenPending = true) (hw : sys.st.ws.isSome = true) :
    (listenRunOp env sys [malformedFrame, notificationFrame payload, WSMsg.closed]
        none).notifCalls =
      sys.notifCalls ++ sys.st.notificationCallbacks.map (fun c => (c, payload)) ∧
    (listenRunOp env sys [malformedFrame, notificationFrame payload, WSMsg.closed]
        none).listenExits =
      sys.listenExits ++ [ListenExit.closeFrame] := by
  obtain ⟨h, hws⟩ := Option.isSome_iff_exists.mp hw
  have hloop : listenLoop env sys.st.notificationCallbacks
      [malformedFrame, notificationFrame payload, WSMsg.closed] none =
      (dispatchNotifs env sys.st.notificationCallbacks payload ++ [],
        ListenExit.closeFrame) := rfl
  unfold listenRunOp
  rw [hp, hws]
  simp [hloop, dispatchNotifs_eq_map]

/-- C2: reconnect snapshots the subscription set, disconnects, connects, and
replays one subscribe frame per snapshotted entry; on success the set equals
the snapshot, and a connect failure propagates leaving the set intact. -/
theorem c2_reconnect (env : CallbackEnv) (sys : Sys) (openOk : Bool)
    (hs : List RecvOutcome) :
    ((reconnectOp env sys openOk hs true).2 = Except.ok () →
      (reconnectOp env sys openOk hs true).1.st.subscriptions = sys.st.subscriptions ∧
      (reconnectOp env sys openOk hs true).1.sent =
        sys.sent ++ OutFrame.auth sys.creds ::
          sys.st.subscriptions.map (fun p => OutFrame.subscribe p.1 p.2)) ∧
    (∀ e, (connectOp (disconnectOp env sys) openOk hs).2 = Except.error e →
      (reconnectOp env sys openOk hs true).2 = Except.error e ∧
      (reconnectOp env sys openOk hs true).1.st.subscriptions = sys.st.subscriptions) := by
  have hdf := disconnectOp_fields env sys
  have hcf := connectOp_frame (disconnectOp env sys) openOk hs
  have hrec : reconnectOp env sys openOk hs true =
      match connectOp (disconnectOp env sys) openOk hs with
      | (sysB, Except.ok _) => replaySubs sysB true sys.st.subscriptions
      | (sysB, Except.error e) => (sysB, Except.error e) := rfl
  rcases hC : connectOp (disconnectOp env sys) openOk hs with ⟨sysB, res⟩
  rw [hC] at hrec hcf
  cases res with
  | error e =>
    rw [hrec]
    refine ⟨fun hok => absurd hok (by simp), ?_⟩
    intro e1 he1
    obtain rfl : e = e1 := by simpa using he1
    exact ⟨rfl, hcf.1.trans hdf.2.2.2.2.1⟩
  | ok u =>
    have hok2 : (connectOp (disconnectOp env sys) openOk hs).2 = Except.ok () := by
      rw [hC]
    have hco := connectOp_ok (disconnectOp env sys) openOk hs hok2
    rw [hC] at hco
    have hsubsB : sysB.st.subscriptions = sys.st.subscriptions := by
      rw [hcf.1, hdf.2.2.2.2.1]
    have hro := replaySubs_open sys.st.subscriptions sysB hco.1
    have hrp := replaySubs_preserved sys.st.subscriptions sysB true
      (fun p hp => by rw [hsubsB]; exact hp)
    rw [hrec]
    constructor
    · intro _
      refine ⟨by rw [hrp, hsubsB], ?_⟩
      rw [hro.2.1, hco.2.1, hdf.2.1, hdf.1]
      simp
    · intro e1 he1
      exact absurd he1 (by simp)


/-- Witness for C2: both branches of `c2_reconnect` at a concrete connected
state with two subscriptions. -/
theorem c2_witness :
    (reconnectOp env0 cSys true [RecvOutcome.msg readyFrame] true).1.st.subscriptions =
      cSys.st.subscriptions ∧
    (reconnectOp env0 cSys true [RecvOutcome.msg readyFrame] true).1.sent =
      cSys.sent ++ OutFrame.auth cSys.creds ::
        cSys.st.subscriptions.map (fun p => OutFrame.subscribe p.1 p.2) ∧
    (reconnectOp env0 cSys false [] true).2 =
      Except.error (PyError.levitonConnectionError "WebSocket connection failed") ∧
    (reconnectOp env0 cSys false [] true).1.st.subscriptions = cSys.st.subscriptions := by
  obtain ⟨h1, h2⟩ := (c2_reconnect env0 cSys true [RecvOutcome.msg readyFrame]).1 rfl
  obtain ⟨h3, h4⟩ := (c2_reconnect env0 cSys false []).2
    (PyError.levitonConnectionError "WebSocket connection failed") rfl
  exact ⟨h1, h2, h3, h4⟩

/-- Witness for C3: the fold law at a concrete connected state and a concrete
call sequence. -/
theorem c3_witness :
    ((applyOps cSys c3ops).st.subscriptions).toFinset =
      mathSetModel cSys.st.subscriptions.toFinset c3ops :=
  c3_set_semantics cSys c3ops rfl

/-- Witness for C4 (amended): in the freshly initialized state the transport
is absent, subscribe raises NotConnected and unsubscribe silently returns. -/
theorem c4_guard_witness :
    subscribeOp (initSys creds0) "IotWhem" (Sum.inr 1) true =
      (initSys creds0,
        Except.error (PyError.levitonConnectionError "WebSocket not connected")) ∧
    unsubscribeOp (initSys creds0) "IotWhem" (Sum.inr 1) true =
      (initSys creds0, Except.ok ()) :=
  (c4_guard (initSys creds0) "IotWhem" (Sum.inr 1) true).2 rfl

/-- Witness for C5: each failure mode of `connect` at concrete handshakes. -/
theorem c5_witness :
    connectOp (initSys creds0) false [RecvOutcome.timeout] =
      (initSys creds0,
        Except.error (PyError.levitonConnectionError "WebSocket connection failed")) ∧
    (connectOp (initSys creds0) true [RecvOutcome.msg WSMsg.closed]).2 =
      Except.error (PyError.levitonConnectionError "WebSocket closed during auth") ∧
    (connectOp (initSys creds0) true [RecvOutcome.timeout]).2 =
      Except.error (PyError.levitonConnectionError "WebSocket did not reach ready state") ∧
    (connectOp (initSys creds0) true [RecvOutcome.timeout]).1.st.ws = some ⟨true⟩ ∧
    (connectOp (initSys creds0) true [RecvOutcome.timeout]).1.st.connected = false := by
  obtain ⟨hA, -, -, -⟩ := c5_connect_failure (initSys creds0) false [RecvOutcome.timeout] rfl
  obtain ⟨-, hB, -, -⟩ :=
    c5_connect_failure (initSys creds0) true [RecvOutcome.msg WSMsg.closed] rfl
  obtain ⟨-, -, hC, hD⟩ := c5_connect_failure (initSys creds0) true [RecvOutcome.timeout] rfl
  obtain ⟨hC1, hC2⟩ := hC rfl
  exact ⟨hA rfl, hB rfl, hC1, hC2, hD _ hC1⟩

/-- Witness for C6: a close frame at a concrete connected state, with every
disconnect observer raising. -/
theorem c6_witness :
    (listenRunOp envAllRaise cSys [WSMsg.closed] none).st.connected = false ∧
    (listenRunOp envAllRaise cSys [WSMsg.closed] none).discCalls =
      cSys.discCalls ++ cSys.st.disconnectCallbacks ∧
    (listenRunOp envAllRaise cSys [WSMsg.closed] none).st.listenPending = false ∧
    (disconnectOp envAllRaise (listenRunOp envAllRaise cSys [WSMsg.closed] none)).discCalls =
      (listenRunOp envAllRaise cSys [WSMsg.closed] none).discCalls :=
  c6_listen_finalization envAllRaise cSys [WSMsg.closed] none rfl rfl

/-- Witness for C7: the malformed/notification/close frame sequence at a
concrete connected state, with every notification observer raising. -/
theorem c7_witness :
    (listenRunOp envAllRaise cSys
        [malformedFrame, notificationFrame (Json.num 5), WSMsg.closed] none).notifCalls =
      cSys.notifCalls ++
        cSys.st.notificationCallbacks.map (fun c => (c, Json.num 5)) ∧
    (listenRunOp envAllRaise cSys
        [malformedFrame, notificationFrame (Json.num 5), WSMsg.closed] none).listenExits =
      cSys.listenExits ++ [ListenExit.closeFrame] :=
  c7_notification_dispatch envAllRaise cSys (Json.num 5) rfl rfl

/-- Witness for C8: a failed and a successful send at a concrete connected
state. -/
theorem c8_witness :
    subscribeOp cSys "A" (Sum.inl "x") false = (cSys, Except.error PyError.sendError) ∧
    (subscribeOp cSys "A" (Sum.inl "x") true).1.st.subscriptions =
      setAdd ("A", Sum.inl "x") cSys.st.subscriptions ∧
    (subscribeOp cSys "A" (Sum.inl "x") true).1.sent =
      cSys.sent ++ [OutFrame.subscribe "A" (Sum.inl "x")] :=
  c8_send_then_record cSys "A" (Sum.inl "x") rfl

/-- Witness for C9: the backoff properties at attempt 3 and jitter 1/2. -/
theorem c9_witness :
    reconnect_delay 3 (1/2) = min (1 * 2 ^ 3 * (3/4 + 1/2 * (1/2))) 16 ∧
    0 ≤ reconnect_delay 3 (1/2) ∧
    reconnect_delay 3 (1/2) ≤ 16 ∧
    reconnect_delay 100 (1/2) = 16 :=
  c9_backoff 3 (1/2) (by norm_num) (by norm_num)

/-- Witness for C10: a non-JSON handshake frame at the initial state. -/
theorem c10_witness :
    (connectOp (initSys creds0) true [RecvOutcome.msg malformedFrame]).2 =
      Except.error PyError.jsonDecodeError ∧
    (connectOp (initSys creds0) true [RecvOutcome.msg malformedFrame]).1.st.connected = false ∧
    (connectOp (initSys creds0) true [RecvOutcome.msg malformedFrame]).1.st.ws = some ⟨false⟩ :=
  c10_decode_error (initSys creds0) [RecvOutcome.msg malformedFrame] rfl rfl

end Aioleviton
